import Mathlib

/-!
Shallow embedding of the routing / query-parameter-extraction core of the
Agentic-Chatbot repository, together with theorems settling the spec claims.

Modules embedded (from `src/`):
* `agents/database_agent.py`  — `DatabaseAgent` (date/type extraction, get/check/count queries)
* `tools/database_tool.py`    — `DatabaseTool` (execute get/count/check, direct `get_meetings`)
* `agents/scheduling_agent.py`— `SchedulingAgent._parse_date`
* `agents/orchestrator.py`    — `OrchestratorAgent.process` / `_save_conversation`

Conventions of the embedding:
* Python `datetime` values are modelled as a calendar-day index (`Int`) plus
  microseconds within the day (`Nat`); `datetime.min.time()` is 0 µs and
  `datetime.max.time()` is 86_399_999_999 µs (23:59:59.999999).
* `re.search` over an alternation of literal words is modelled as
  "contains one of the words as a substring" (the `DatabaseAgent` patterns
  carry no word boundaries; the `DatabaseTool` keyword table's `\b`
  boundaries are irrelevant to the concrete inputs used here).
* SQLAlchemy query chains over the `meetings` table are modelled as `List`
  pipelines over the session's list of `Meeting` rows: `filter` is
  `List.filter`, `order_by(...asc())` a sort by `scheduled_date`,
  `limit(n)` is `List.take n`, `ilike '%p%'` a case-insensitive substring
  test (ASCII lowering, as in SQLite's LIKE).
-/

/-- Is `p` a leading segment of `s`? (character-list level helper) -/
def leadsWith : List Char → List Char → Bool
  | [], _ => true
  | _ :: _, [] => false
  | c :: cs, d :: ds => c == d && leadsWith cs ds

/-- Does `p` occur as a contiguous segment of `s`? -/
def hasSub (p : List Char) : List Char → Bool
  | [] => leadsWith p []
  | d :: ds => leadsWith p (d :: ds) || hasSub p ds

/-- `substrOf needle hay`: does `needle` occur as a substring of `hay`?
Models Python `re.search` applied to a single literal word. -/
def substrOf (needle hay : String) : Bool :=
  hasSub needle.data hay.data

/-- `re.search('(w1|w2|...)', q)` over literal alternatives: does `q` contain
any of the words? -/
def containsAny (pats : List String) (q : String) : Bool :=
  pats.any (fun p => substrOf p q)

/-- Case-insensitive substring test: SQLAlchemy `column.ilike('%pat%')`
(ASCII case folding, as in SQLite's LIKE). -/
def containsCI (pat s : String) : Bool :=
  hasSub (pat.data.map Char.toLower) (s.data.map Char.toLower)

/-- A Python `datetime`: a proleptic-Gregorian day ordinal plus microseconds
within the day.  `datetime.combine(d, datetime.min.time())` is `⟨d, 0⟩`;
`datetime.combine(d, datetime.max.time())` is `⟨d, 86399999999⟩`. -/
structure DateTime where
  day : Int
  usec : Nat
deriving DecidableEq, Repr

/-- Microseconds of `datetime.max.time()` = 23:59:59.999999. -/
def maxUsec : Nat := 86399999999

/-- `datetime` comparison `a <= b` (lexicographic on day, then µs). -/
def dtLe (a b : DateTime) : Bool :=
  decide (a.day < b.day ∨ (a.day = b.day ∧ a.usec ≤ b.usec))

/-- Gregorian leap-year test, as used by Python's `datetime` validation. -/
def isLeap (y : Nat) : Bool :=
  (y % 4 == 0 && y % 100 != 0) || y % 400 == 0

/-- Number of days in month `m` of year `y` (Python `calendar` rules). -/
def daysInMonth (y m : Nat) : Nat :=
  if m = 2 then (if isLeap y then 29 else 28)
  else if m = 4 ∨ m = 6 ∨ m = 9 ∨ m = 11 then 30
  else 31

/-- Days in the given year that precede month `m` (1-based). -/
def daysBeforeMonth (y m : Nat) : Nat :=
  (match m with
   | 1 => 0 | 2 => 31 | 3 => 59 | 4 => 90 | 5 => 120 | 6 => 151
   | 7 => 181 | 8 => 212 | 9 => 243 | 10 => 273 | 11 => 304 | _ => 334)
  + (if isLeap y ∧ 3 ≤ m then 1 else 0)

/-- Proleptic-Gregorian ordinal of the date `y-m-d` (Python
`date(y,m,d).toordinal()`): day 1 is 0001-01-01. -/
def toOrdinal (y m d : Nat) : Int :=
  let yb := y - 1
  (365 * yb + yb / 4 - yb / 100 + yb / 400 + daysBeforeMonth y m + d : Int)

/-- Split a character list on the `'-'` separator (Python `s.split('-')`
semantics, which `s.splitOn "-"` matches for the single-character
separator). -/
def splitDash : List Char → List (List Char)
  | [] => [[]]
  | d :: ds =>
    match splitDash ds with
    | [] => [[d]]
    | g :: gs => if d == '-' then [] :: g :: gs else (d :: g) :: gs

/-- Are all characters ASCII digits? (Python `\d` on the inputs of interest.) -/
def allDigits (l : List Char) : Bool :=
  l.all Char.isDigit

/-- Numeric value of a digit sequence. -/
def natOfDigits (l : List Char) : Nat :=
  l.foldl (fun a c => a * 10 + (c.toNat - 48)) 0

/-- `datetime.strptime(s, '%Y-%m-%d')`, reduced to the parsed (year, month,
day) triple.  CPython's `%Y` matches exactly four digits, `%m` and `%d` one
or two digits, the whole string must be consumed, and the resulting triple
must be a valid calendar date with `1 <= year` (else `ValueError`). -/
def parseYMD (s : String) : Option (Nat × Nat × Nat) :=
  match splitDash s.data with
  | [ys, ms, ds] =>
    if ys.length = 4 ∧ allDigits ys
       ∧ 1 ≤ ms.length ∧ ms.length ≤ 2 ∧ allDigits ms
       ∧ 1 ≤ ds.length ∧ ds.length ≤ 2 ∧ allDigits ds then
      let y := natOfDigits ys
      let m := natOfDigits ms
      let d := natOfDigits ds
      if 1 ≤ y ∧ 1 ≤ m ∧ m ≤ 12 ∧ 1 ≤ d ∧ d ≤ daysInMonth y m then
        some (y, m, d)
      else none
    else none
  | _ => none

/-- A stored meeting row (`database/models.py`, class `Meeting`). -/
structure Meeting where
  id : Nat
  title : String
  location : String
  scheduled_date : DateTime
  participants : List String
  weather_conditions : Option String
  weather_decision : Option String
  status : String
  created_at : Option DateTime
deriving DecidableEq, Repr

/-- The dictionary produced by `Meeting.to_dict` (`database/models.py`);
`scheduled_date.isoformat()` is kept as the `DateTime` value itself. -/
structure MeetingDict where
  id : Nat
  title : String
  location : String
  scheduled_date : DateTime
  participants : List String
  weather_conditions : Option String
  weather_decision : Option String
  status : String
  created_at : Option DateTime
deriving DecidableEq, Repr

/-- `Meeting.to_dict` (`database/models.py` lines 21-32). -/
def Meeting.to_dict (m : Meeting) : MeetingDict :=
  ⟨m.id, m.title, m.location, m.scheduled_date, m.participants,
   m.weather_conditions, m.weather_decision, m.status, m.created_at⟩

/-- Insert a meeting into a list sorted ascending by scheduled date. -/
def insertByDate (x : Meeting) : List Meeting → List Meeting
  | [] => [x]
  | y :: ys =>
    if dtLe y.scheduled_date x.scheduled_date then y :: insertByDate x ys
    else x :: y :: ys

/-- `query.order_by(Meeting.scheduled_date.asc())`: sort ascending by
scheduled date (insertion sort; the SQL backend does not fix the relative
order of equal keys). -/
def sortByDate : List Meeting → List Meeting
  | [] => []
  | x :: xs => insertByDate x (sortByDate xs)

namespace DatabaseAgent

/-- `self.patterns['today']` = `(today|current day|now)` (database_agent.py line 13). -/
def todayPat : List String := ["today", "current day", "now"]

/-- `self.patterns['tomorrow']` = `(tomorrow|next day|day after)` (line 12). -/
def tomorrowPat : List String := ["tomorrow", "next day", "day after"]

/-- `self.patterns['week']` = `(week|next week|this week|weekly)` (line 14). -/
def weekPat : List String := ["week", "next week", "this week", "weekly"]

/-- `self.patterns['review']` = `(review|retrospective|check-in)` (line 16). -/
def reviewPat : List String := ["review", "retrospective", "check-in"]

/-- `self.patterns['team']` = `(team|group|department)` (line 17). -/
def teamPat : List String := ["team", "group", "department"]

/-- `date_keywords['yesterday']` of `DatabaseTool.__init__`
(database_tool.py line 18): `\b(yesterday|previous day|day before)\b`.
Declared in the tool's pattern table; no in-repo extractor consults it. -/
def yesterdayPat : List String := ["yesterday", "previous day", "day before"]

/-- `meeting_keywords['client']` of `DatabaseTool.__init__`
(database_tool.py line 31): `\b(client|customer|partner|external)\b`.
Declared in the tool's pattern table; no in-repo extractor consults it. -/
def clientPat : List String := ["client", "customer", "partner", "external"]

/-- The dictionary shapes `DatabaseAgent._extract_date_filter` can return:
`{'type': 'today'|'tomorrow', 'date', 'start_date', 'end_date'}`,
`{'type': 'week', 'start_date', 'end_date'}`, or `{'type': 'all'}`. -/
inductive ADateFilter where
  | today (date : Int) (start_date end_date : DateTime)
  | tomorrow (date : Int) (start_date end_date : DateTime)
  | week (start_date end_date : DateTime)
  | all
deriving DecidableEq, Repr

/-- The `'type'` entry of the date-filter dictionary. -/
def ADateFilter.dfType : ADateFilter → String
  | .today .. => "today"
  | .tomorrow .. => "tomorrow"
  | .week .. => "week"
  | .all => "all"

/-- `DatabaseAgent._extract_date_filter` (database_agent.py lines 73-100).
`todayD` is `datetime.now().date()` (injected); the argument `query` is the
already lower-cased query text. -/
def extract_date_filter (todayD : Int) (query : String) : ADateFilter :=
  if containsAny todayPat query then
    .today todayD ⟨todayD, 0⟩ ⟨todayD, maxUsec⟩
  else if containsAny tomorrowPat query then
    .tomorrow (todayD + 1) ⟨todayD + 1, 0⟩ ⟨todayD + 1, maxUsec⟩
  else if containsAny weekPat query then
    .week ⟨todayD, 0⟩ ⟨todayD + 7, maxUsec⟩
  else
    .all

/-- `DatabaseAgent._extract_meeting_type` (database_agent.py lines 102-109). -/
def extract_meeting_type (query : String) : String :=
  if containsAny reviewPat query then "review"
  else if containsAny teamPat query then "team"
  else "any"

/-- The `params` dictionary built by `DatabaseAgent._parse_query`
(lines 64-69): date filter, meeting type, limit (10). -/
structure AgentParams where
  date_filter : ADateFilter
  meeting_type : String
  limit : Nat
deriving Repr

/-- The row dictionary built by `DatabaseAgent._get_meetings_query`
(lines 140-150). -/
structure AgentRow where
  id : Nat
  title : String
  location : String
  scheduled_date : DateTime
  participants : List String
  status : String
deriving DecidableEq, Repr

/-- Row projection of `_get_meetings_query`'s result comprehension. -/
def Meeting.toAgentRow (m : Meeting) : AgentRow :=
  ⟨m.id, m.title, m.location, m.scheduled_date, m.participants, m.status⟩

/-- `DatabaseAgent._get_meetings_query` (database_agent.py lines 111-150):
date range filter for kinds today/tomorrow/week (identical bodies of the
three `elif` arms), then the meeting-type filter — `review` is
`title ilike '%review%' OR title ilike '%retro%'`, `team` is
`title ilike '%team%' OR participants.any()` (participants non-empty) —
then `limit(params.get('limit', 10))`; no ordering, no location filter. -/
def get_meetings_query (params : AgentParams) (db : List Meeting) : List AgentRow :=
  let q := db
  let q : List Meeting :=
    match params.date_filter with
    | .today _ s e => q.filter (fun m => dtLe s m.scheduled_date && dtLe m.scheduled_date e)
    | .tomorrow _ s e => q.filter (fun m => dtLe s m.scheduled_date && dtLe m.scheduled_date e)
    | .week s e => q.filter (fun m => dtLe s m.scheduled_date && dtLe m.scheduled_date e)
    | .all => q
  let q : List Meeting :=
    if params.meeting_type = "review" then
      q.filter (fun m => containsCI "review" m.title || containsCI "retro" m.title)
    else if params.meeting_type = "team" then
      q.filter (fun m => containsCI "team" m.title || !m.participants.isEmpty)
    else q
  (q.take params.limit).map Meeting.toAgentRow

/-- Result dictionary of `DatabaseAgent._count_meetings_query` (lines 162-170). -/
structure ACountResult where
  count : Nat
  period : String
  meeting_type : String
deriving DecidableEq, Repr

/-- `DatabaseAgent._count_meetings_query` (database_agent.py lines 162-170):
runs `_get_meetings_query` and returns the length of its result. -/
def count_meetings_query (params : AgentParams) (db : List Meeting) : ACountResult :=
  let meetings := get_meetings_query params db
  ⟨meetings.length, params.date_filter.dfType, params.meeting_type⟩

end DatabaseAgent

namespace DatabaseTool

/-- The `date_filter` dictionary consumed by
`DatabaseTool._execute_get_meetings` (database_tool.py lines 75-80): it may
or may not carry `'start'`/`'end'` bounds and a `'type'` tag. -/
structure ToolDateFilter where
  type : Option String
  start : Option DateTime
  end_ : Option DateTime
deriving DecidableEq, Repr

/-- The `params` dictionary consumed by the `DatabaseTool._execute_*`
methods: optional date filter bounds, `meeting_type`, `location`, `limit`
(default 10 via `params.get('limit', 10)`). -/
structure ToolParams where
  date_filter : ToolDateFilter
  meeting_type : Option String
  location : Option String
  limit : Option Nat
deriving Repr

/-- The dictionary returned by `DatabaseTool._execute_get_meetings`
(lines 97-105); the nested `filters_applied` dict is flattened into the
three trailing fields. -/
structure GetResult where
  count : Nat
  meetings : List MeetingDict
  date_range : Option String
  meeting_type_applied : Option String
  location_applied : Option String
deriving DecidableEq, Repr

/-- `DatabaseTool._execute_get_meetings` (database_tool.py lines 70-105):
date range filter when both `'start'` and `'end'` are present; meeting-type
filter — `review` is `title ilike '%review%'`, `team` is
`title ilike '%team%'` (title check only, no participants condition);
location filter `location ilike '%loc%'` when `location` is truthy;
`order_by(scheduled_date.asc()).limit(params.get('limit', 10))`;
`count` is `len(meetings)`. -/
def execute_get_meetings (params : ToolParams) (db : List Meeting) : GetResult :=
  let q := db
  let q : List Meeting :=
    match params.date_filter.start, params.date_filter.end_ with
    | some s, some e =>
      q.filter (fun m => dtLe s m.scheduled_date && dtLe m.scheduled_date e)
    | _, _ => q
  let q : List Meeting :=
    match params.meeting_type with
    | some "review" => q.filter (fun m => containsCI "review" m.title)
    | some "team" => q.filter (fun m => containsCI "team" m.title)
    | _ => q
  let q : List Meeting :=
    match params.location with
    | some l => if l = "" then q else q.filter (fun m => containsCI l m.location)
    | none => q
  let meetings := ((sortByDate q).take ((params.limit).getD 10)).map Meeting.to_dict
  ⟨meetings.length, meetings,
   params.date_filter.type, params.meeting_type, params.location⟩

/-- The dictionary returned by `DatabaseTool._execute_count_meetings`
(lines 111-116). -/
structure CountResult where
  count : Nat
  period : String
  meeting_type : String
  location : String
deriving DecidableEq, Repr

/-- `DatabaseTool._execute_count_meetings` (database_tool.py lines 107-116):
runs `_execute_get_meetings` and reads its `count`; the remaining fields
echo the filters (`params.get(..., 'all')` defaults). -/
def execute_count_meetings (params : ToolParams) (db : List Meeting) : CountResult :=
  let result := execute_get_meetings params db
  ⟨result.count,
   (params.date_filter.type).getD "all",
   (params.meeting_type).getD "all",
   (params.location).getD "all"⟩

/-- The dictionary returned by `DatabaseTool._execute_check_meeting`
(lines 118-126); the human-readable `message` is omitted. -/
structure CheckResult where
  exists_ : Bool
  count : Nat
deriving DecidableEq, Repr

/-- `DatabaseTool._execute_check_meeting` (database_tool.py lines 118-126):
runs `_execute_get_meetings` and reads its `count`. -/
def execute_check_meeting (params : ToolParams) (db : List Meeting) : CheckResult :=
  let result := execute_get_meetings params db
  ⟨result.count > 0, result.count⟩

/-- `DatabaseTool.get_meetings` (database_tool.py lines 128-154), the
`/api/meetings` path: when `date` is truthy, resolve it to a target day
(`today`/`tomorrow`/`yesterday` keywords, else `strptime('%Y-%m-%d')`) and
filter the day's range; the `try`/`except: pass` drops the date filter
entirely when `strptime` raises; then the optional location filter, then
`order_by(scheduled_date.asc()).all()`.  `todayD` is `datetime.now().date()`. -/
def get_meetings (db : List Meeting) (todayD : Int)
    (date : Option String) (location : Option String) : List MeetingDict :=
  let q := db
  let q : List Meeting :=
    match date with
    | some ds =>
      if ds = "" then q
      else
        let target : Option Int :=
          if ds = "today" then some todayD
          else if ds = "tomorrow" then some (todayD + 1)
          else if ds = "yesterday" then some (todayD - 1)
          else (parseYMD ds).map (fun t => toOrdinal t.1 t.2.1 t.2.2)
        match target with
        | some t =>
          q.filter (fun m => dtLe ⟨t, 0⟩ m.scheduled_date && dtLe m.scheduled_date ⟨t, maxUsec⟩)
        | none => q
    | none => q
  let q : List Meeting :=
    match location with
    | some l => if l = "" then q else q.filter (fun m => containsCI l m.location)
    | none => q
  (sortByDate q).map Meeting.to_dict

end DatabaseTool

namespace SchedulingAgent

/-- `SchedulingAgent._parse_date` (scheduling_agent.py lines 91-110):
keyword dates resolve relative to `todayD` = `datetime.now().date()`;
otherwise `strptime('%Y-%m-%d')`, and on parse failure the intentional
fallback is tomorrow's midnight. -/
def parse_date (todayD : Int) (date_str : String) : DateTime :=
  if date_str = "today" then ⟨todayD, 0⟩
  else if date_str = "tomorrow" then ⟨todayD + 1, 0⟩
  else if date_str = "yesterday" then ⟨todayD - 1, 0⟩
  else
    match parseYMD date_str with
    | some t => ⟨toOrdinal t.1 t.2.1 t.2.2, 0⟩
    | none => ⟨todayD + 1, 0⟩

end SchedulingAgent

namespace Orchestrator

/-- A value stored in a Python response dictionary. -/
inductive Val where
  | vs (v : String)
  | vn (v : Int)
  | vb (v : Bool)
  | vnull
deriving DecidableEq, Repr

/-- A Python response dictionary: an association list where the first
binding of a key is the current one. -/
abbrev Resp := List (String × Val)

/-- Dictionary lookup (`d[k]` / `d.get(k)`). -/
def Resp.lookup (r : Resp) (k : String) : Option Val :=
  (List.find? (fun p => p.1 == k) r).map (fun p => p.2)

/-- Python `dict.update(kvs)`: later bindings shadow earlier ones, so the
new pairs are prepended in reverse. -/
def Resp.updateR (r : Resp) (kvs : List (String × Val)) : Resp :=
  kvs.reverse ++ r

/-- An optional string as a dictionary value (`None` ↦ null). -/
def optVal : Option String → Val
  | some s => .vs s
  | none => .vnull

/-- Modelled from the spec: the collaborators `OrchestratorAgent.process`
calls — `_determine_agent` and the `_handle_weather` / `_handle_document` /
`_handle_scheduling` / `_handle_database` / `_handle_general` handlers —
are invoked in orchestrator.py lines 43-55 but their bodies are elided from
the source ("rest of the methods remain the same", line 86).  Per the spec
each classifies or produces a response dictionary and may raise; they are
modelled as abstract functions returning `Except`.  `save_log` is the
outcome of the conversation-log write (`db.add`/`db.commit` in
`_save_conversation`), the spec's `ConversationLog.record`. -/
structure Handlers where
  determine_agent : String → Except String String
  handle_weather : String → Except String Resp
  handle_document : String → Except String Resp
  handle_scheduling : String → Except String Resp
  handle_database : String → Except String Resp
  handle_general : String → Except String Resp
  save_log : Except String Unit

/-- `OrchestratorAgent._save_conversation` (orchestrator.py lines 99-115):
the `try`/`except` around the log write rolls back and swallows any
failure ("Don't raise error - conversation saving is optional"), so the
call always returns normally. -/
def save_conversation (logWrite : Except String Unit) : Except String Unit :=
  match logWrite with
  | .ok _ => .ok ()
  | .error _ => .ok ()

/-- The `if`/`elif` dispatch of `process` (orchestrator.py lines 46-55):
route to the matching handler, `_handle_general` for anything else. -/
def dispatch (h : Handlers) (agent_type msg : String) : Except String Resp :=
  match agent_type with
  | "weather" => h.handle_weather msg
  | "document" => h.handle_document msg
  | "scheduling" => h.handle_scheduling msg
  | "database" => h.handle_database msg
  | _ => h.handle_general msg

/-- The metadata update `response.update({...})` of `process`
(orchestrator.py lines 69-74). -/
def finalize (response : Resp) (agent_type : String) (cid : Option String)
    (nowTs msg : String) : Resp :=
  response.updateR
    [("agent_used", .vs agent_type),
     ("conversation_id", optVal cid),
     ("timestamp", .vs nowTs),
     ("original_message", .vs msg)]

/-- The body of the `try` block of `OrchestratorAgent.process`
(orchestrator.py lines 41-76): classify, dispatch to the matching handler,
save the conversation when a database session is present, then update the
response with metadata (`nowTs` injects `datetime.now().isoformat()`).
An `error` value models a Python exception escaping the block. -/
def processExc (h : Handlers) (hasDb : Bool) (nowTs : String)
    (msg : String) (cid : Option String) : Except String Resp := do
  let agent_type ← h.determine_agent msg
  let response ← dispatch h agent_type msg
  if hasDb then
    let _ ← save_conversation h.save_log
  pure (finalize response agent_type cid nowTs msg)

/-- The dictionary returned by the `except` branch of
`OrchestratorAgent.process` (orchestrator.py lines 78-84). -/
def errorResp (e : String) : Resp :=
  [("agent", .vs "error"),
   ("response", .vs ("Sorry, I encountered an error: " ++ e)),
   ("confidence", .vn 0),
   ("suggestion", .vs "Please try rephrasing your question.")]

/-- `OrchestratorAgent.process` (orchestrator.py lines 38-84): the whole
body sits in a `try`; any exception is converted to the fixed error
dictionary, so the function is total. -/
def process (h : Handlers) (hasDb : Bool) (nowTs : String)
    (msg : String) (cid : Option String) : Resp :=
  match processExc h hasDb nowTs msg cid with
  | .ok r => r
  | .error e => errorResp e

end Orchestrator

/-! ## Helper lemmas and concrete fixtures -/

/-- `_save_conversation` always returns normally, whatever the log write did. -/
theorem Orchestrator.save_conversation_ok (lw : Except String Unit) :
    Orchestrator.save_conversation lw = Except.ok () := by
  cases lw <;> rfl

/-- Lookups into the metadata fields set by `finalize`, independent of the
handler's response dictionary. -/
theorem Orchestrator.lookup_finalize (response : Orchestrator.Resp) (agent_type : String)
    (cid : Option String) (nowTs msg : String) :
    (Orchestrator.finalize response agent_type cid nowTs msg).lookup "timestamp"
        = some (Orchestrator.Val.vs nowTs)
    ∧ (Orchestrator.finalize response agent_type cid nowTs msg).lookup "original_message"
        = some (Orchestrator.Val.vs msg)
    ∧ (Orchestrator.finalize response agent_type cid nowTs msg).lookup "agent_used"
        = some (Orchestrator.Val.vs agent_type) := by
  refine ⟨rfl, rfl, rfl⟩

/-- A meeting whose title lacks "team" but whose participant list is
non-empty: the record the spec's team-OR-participants reading would return. -/
def teamCexMeeting : Meeting :=
  ⟨1, "Standup", "Office", ⟨0, 0⟩, ["alice"], none, none, "scheduled", none⟩

/-- Tool parameters for a plain `team`-category query (no date bounds, no
location, default limit). -/
def teamCexParams : DatabaseTool.ToolParams :=
  ⟨⟨none, none, none⟩, some "team", none, none⟩

/-- Handlers whose classification step raises (models any internal failure,
e.g. the `AttributeError` from the elided `_determine_agent`). -/
def errH : Orchestrator.Handlers :=
  ⟨fun _ => .error "boom", fun _ => .ok [], fun _ => .ok [], fun _ => .ok [],
   fun _ => .ok [], fun _ => .ok [], .ok ()⟩

/-- Handlers where classification yields an unrecognized agent tag (the
unknown-intent branch, served by `_handle_general`) and the handler
succeeds. -/
def okH : Orchestrator.Handlers :=
  ⟨fun _ => .ok "general", fun _ => .ok [], fun _ => .ok [], fun _ => .ok [],
   fun _ => .ok [], fun _ => .ok [("response", .vs "hi"), ("confidence", .vn 40)], .ok ()⟩

/-! ## Claims -/

/-- Claim C1: for every parameter set and store state, the count operation
returns a count equal to the length of the meetings sequence returned by
get on the same parameters and store: `DatabaseTool._execute_count_meetings`
reads the `count` of `_execute_get_meetings` (itself `len(meetings)`), and
`DatabaseAgent._count_meetings_query` returns `len(_get_meetings_query(...))`;
neither issues a second query. -/
theorem c1_count_derived_from_get (p : DatabaseTool.ToolParams)
    (ap : DatabaseAgent.AgentParams) (db : List Meeting) :
    (DatabaseTool.execute_count_meetings p db).count
        = (DatabaseTool.execute_get_meetings p db).meetings.length
    ∧ (DatabaseAgent.count_meetings_query ap db).count
        = (DatabaseAgent.get_meetings_query ap db).length := by
  exact ⟨rfl, rfl⟩

/-- Claim C6: for every text containing a tomorrow marker and no today or
yesterday marker, `_extract_date_filter` returns kind `tomorrow` with start
at midnight of the day after now and end at that day's last instant
(23:59:59.999999). -/
theorem c6_tomorrow_marker (q : String) (d : Int)
    (ht : containsAny DatabaseAgent.tomorrowPat q = true)
    (hn : containsAny DatabaseAgent.todayPat q = false)
    (_hy : containsAny DatabaseAgent.yesterdayPat q = false) :
    DatabaseAgent.extract_date_filter d q
      = DatabaseAgent.ADateFilter.tomorrow (d + 1) ⟨d + 1, 0⟩ ⟨d + 1, maxUsec⟩ := by
  unfold DatabaseAgent.extract_date_filter
  simp [ht, hn]

/-- Witness for C6 at the text "tomorrow" and day 0. -/
theorem c6_tomorrow_marker_witness :
    DatabaseAgent.extract_date_filter 0 "tomorrow"
      = DatabaseAgent.ADateFilter.tomorrow 1 ⟨1, 0⟩ ⟨1, maxUsec⟩ :=
  c6_tomorrow_marker "tomorrow" 0 (by decide) (by decide) (by decide)

/-- Claim C7: a date string on the scheduling path that is none of the
keywords and fails to parse as `YYYY-MM-DD` does not raise —
`_parse_date` falls back to tomorrow's midnight. -/
theorem c7_unparseable_date_falls_back (ds : String) (d : Int)
    (h1 : ds ≠ "today") (h2 : ds ≠ "tomorrow") (h3 : ds ≠ "yesterday")
    (h4 : parseYMD ds = none) :
    SchedulingAgent.parse_date d ds = ⟨d + 1, 0⟩ := by
  unfold SchedulingAgent.parse_date
  simp [h1, h2, h3, h4]

/-- Witness for C7 at the spec's example "2024-13-45" and day 0. -/
theorem c7_unparseable_date_falls_back_witness :
    SchedulingAgent.parse_date 0 "2024-13-45" = ⟨1, 0⟩ :=
  c7_unparseable_date_falls_back "2024-13-45" 0 (by decide) (by decide)
    (by decide) (by decide)

/-- Counterexample to Claim C3: the text "yesterday" contains a yesterday
marker and no today/tomorrow marker, yet `DatabaseAgent._extract_date_filter`
— whose rule chain is today, tomorrow, week, else all, with no yesterday
rule — resolves it to kind `all`, not `yesterday`. -/
theorem c3_yesterday_counterexample :
    containsAny DatabaseAgent.yesterdayPat "yesterday" = true
    ∧ containsAny DatabaseAgent.todayPat "yesterday" = false
    ∧ containsAny DatabaseAgent.tomorrowPat "yesterday" = false
    ∧ (DatabaseAgent.extract_date_filter 0 "yesterday").dfType = "all"
    ∧ (DatabaseAgent.extract_date_filter 0 "yesterday").dfType ≠ "yesterday" := by
  refine ⟨by decide, by decide, by decide, by decide, by decide⟩

/-- Claim C3 as amended: `_extract_date_filter` tests today, tomorrow, week
in that order (first match wins) and has no yesterday rule; a text with a
yesterday marker and no today/tomorrow/week marker resolves to kind `all`
(no date bound). -/
theorem c3_amended_no_yesterday_rule (q : String) (d : Int)
    (_hy : containsAny DatabaseAgent.yesterdayPat q = true)
    (h1 : containsAny DatabaseAgent.todayPat q = false)
    (h2 : containsAny DatabaseAgent.tomorrowPat q = false)
    (h3 : containsAny DatabaseAgent.weekPat q = false) :
    DatabaseAgent.extract_date_filter d q = DatabaseAgent.ADateFilter.all := by
  unfold DatabaseAgent.extract_date_filter
  simp [h1, h2, h3]

/-- Witness for the amended C3 at the text "yesterday" and day 0. -/
theorem c3_amended_no_yesterday_rule_witness :
    DatabaseAgent.extract_date_filter 0 "yesterday" = DatabaseAgent.ADateFilter.all :=
  c3_amended_no_yesterday_rule "yesterday" 0 (by decide) (by decide)
    (by decide) (by decide)

/-- Counterexample to Claim C4: `teamCexMeeting` satisfies the claimed
disjunction (participants non-empty) but `DatabaseTool._execute_get_meetings`
— whose team filter is the title check alone — does not return it for a
team-category query. -/
theorem c4_team_participants_counterexample :
    containsCI "team" teamCexMeeting.title = false
    ∧ teamCexMeeting.participants ≠ []
    ∧ (DatabaseTool.execute_get_meetings teamCexParams [teamCexMeeting]).meetings = [] := by
  refine ⟨by decide, by decide, by rfl⟩

/-- Claim C4 as amended: for a team-category query,
`DatabaseAgent._get_meetings_query` filters by (title contains "team"
case-insensitively OR participants non-empty), while
`DatabaseTool._execute_get_meetings` applies only the title-substring
check, so records matching only through non-empty participants are not
returned on the tool path. -/
theorem c4_amended_team_filters (db : List Meeting) (lim : Nat) :
    DatabaseAgent.get_meetings_query ⟨DatabaseAgent.ADateFilter.all, "team", lim⟩ db
      = ((db.filter (fun m => containsCI "team" m.title || !m.participants.isEmpty)).take lim).map
          DatabaseAgent.Meeting.toAgentRow
    ∧ (DatabaseTool.execute_get_meetings ⟨⟨none, none, none⟩, some "team", none, some lim⟩ db).meetings
      = ((sortByDate (db.filter (fun m => containsCI "team" m.title))).take lim).map
          Meeting.to_dict := by
  exact ⟨rfl, rfl⟩

/-- Counterexample to Claim C5: the text "client" contains a client keyword
and no review/team keyword, yet `DatabaseAgent._extract_meeting_type` —
which tests review then team, with no client rule — returns `any`. -/
theorem c5_client_counterexample :
    containsAny DatabaseAgent.clientPat "client" = true
    ∧ containsAny DatabaseAgent.reviewPat "client" = false
    ∧ containsAny DatabaseAgent.teamPat "client" = false
    ∧ DatabaseAgent.extract_meeting_type "client" = "any"
    ∧ DatabaseAgent.extract_meeting_type "client" ≠ "client" := by
  refine ⟨by decide, by decide, by decide, by decide, by decide⟩

/-- Claim C5 as amended: `_extract_meeting_type` tests the review and team
keyword sets in that order, defaulting to `any`; there is no client rule,
so a text with a client keyword and no review/team keyword yields `any`. -/
theorem c5_amended_no_client_rule (q : String)
    (_hc : containsAny DatabaseAgent.clientPat q = true)
    (h1 : containsAny DatabaseAgent.reviewPat q = false)
    (h2 : containsAny DatabaseAgent.teamPat q = false) :
    DatabaseAgent.extract_meeting_type q = "any" := by
  unfold DatabaseAgent.extract_meeting_type
  simp [h1, h2]

/-- Witness for the amended C5 at the text "client". -/
theorem c5_amended_no_client_rule_witness :
    DatabaseAgent.extract_meeting_type "client" = "any" :=
  c5_amended_no_client_rule "client" (by decide) (by decide) (by decide)

/-- Claim C10: on the direct `/api/meetings` path, a date argument that is
none of the keywords and fails to parse is silently dropped —
`DatabaseTool.get_meetings` behaves exactly as with no date argument
(location-only filtering) — whereas the scheduling path's `_parse_date`
defaults the same input to tomorrow's midnight. -/
theorem c10_bad_date_silently_dropped (db : List Meeting) (d : Int) (ds : String)
    (loc : Option String)
    (h1 : ds ≠ "today") (h2 : ds ≠ "tomorrow") (h3 : ds ≠ "yesterday")
    (h4 : parseYMD ds = none) :
    DatabaseTool.get_meetings db d (some ds) loc = DatabaseTool.get_meetings db d none loc
    ∧ SchedulingAgent.parse_date d ds = ⟨d + 1, 0⟩ := by
  constructor
  · unfold DatabaseTool.get_meetings
    by_cases he : ds = ""
    · simp [he]
    · simp [he, h1, h2, h3, h4]
  · unfold SchedulingAgent.parse_date
    simp [h1, h2, h3, h4]

/-- Witness for C10: the unparseable date "2024-13-45" over a one-meeting
store with a location filter. -/
theorem c10_bad_date_silently_dropped_witness :
    DatabaseTool.get_meetings [teamCexMeeting] 0 (some "2024-13-45") (some "off")
      = DatabaseTool.get_meetings [teamCexMeeting] 0 none (some "off")
    ∧ SchedulingAgent.parse_date 0 "2024-13-45" = ⟨1, 0⟩ :=
  c10_bad_date_silently_dropped [teamCexMeeting] 0 "2024-13-45" (some "off")
    (by decide) (by decide) (by decide) (by decide)

/-- Claim C2: `OrchestratorAgent.process` never raises to its caller —
`process` is total, and whenever its `try` body fails the returned envelope
marks the error in its `agent` field and carries confidence 0. -/
theorem c2_process_never_raises (h : Orchestrator.Handlers) (hasDb : Bool)
    (ts msg : String) (cid : Option String) (e : String)
    (hf : Orchestrator.processExc h hasDb ts msg cid = Except.error e) :
    Orchestrator.process h hasDb ts msg cid = Orchestrator.errorResp e
    ∧ (Orchestrator.process h hasDb ts msg cid).lookup "agent"
        = some (Orchestrator.Val.vs "error")
    ∧ (Orchestrator.process h hasDb ts msg cid).lookup "confidence"
        = some (Orchestrator.Val.vn 0) := by
  unfold Orchestrator.process
  rw [hf]
  exact ⟨rfl, rfl, rfl⟩

/-- Witness for C2: handlers whose classification step fails. -/
theorem c2_process_never_raises_witness :
    Orchestrator.process errH false "ts" "hello" none = Orchestrator.errorResp "boom"
    ∧ (Orchestrator.process errH false "ts" "hello" none).lookup "agent"
        = some (Orchestrator.Val.vs "error")
    ∧ (Orchestrator.process errH false "ts" "hello" none).lookup "confidence"
        = some (Orchestrator.Val.vn 0) :=
  c2_process_never_raises errH false "ts" "hello" none "boom" (by rfl)

/-- Counterexample to Claim C8: when the `try` body of `process` fails, the
returned dictionary is the fixed error envelope, which carries no
`timestamp`, no `original_message` echo, and no `agent_used` field — so not
every branch populates them. -/
theorem c8_error_branch_counterexample :
    (Orchestrator.process errH false "ts" "hello" none).lookup "timestamp" = none
    ∧ (Orchestrator.process errH false "ts" "hello" none).lookup "original_message" = none
    ∧ (Orchestrator.process errH false "ts" "hello" none).lookup "agent_used" = none := by
  refine ⟨rfl, rfl, rfl⟩

/-- Claim C8 as amended: every branch of `process` that completes without
an exception — including the unknown-intent branch served by
`_handle_general` — returns an envelope carrying the agent used, the
timestamp, and an echo of the original message; the internal-error branch
instead returns the fixed error dictionary without those fields. -/
theorem c8_amended_success_branches (h : Orchestrator.Handlers) (hasDb : Bool)
    (ts msg : String) (cid : Option String) (r : Orchestrator.Resp)
    (hok : Orchestrator.processExc h hasDb ts msg cid = Except.ok r) :
    (Orchestrator.process h hasDb ts msg cid).lookup "timestamp"
        = some (Orchestrator.Val.vs ts)
    ∧ (Orchestrator.process h hasDb ts msg cid).lookup "original_message"
        = some (Orchestrator.Val.vs msg)
    ∧ ∃ a, (Orchestrator.process h hasDb ts msg cid).lookup "agent_used"
        = some (Orchestrator.Val.vs a) := by
  have hp : Orchestrator.process h hasDb ts msg cid = r := by
    unfold Orchestrator.process
    rw [hok]
  rw [hp]
  unfold Orchestrator.processExc at hok
  cases hda : h.determine_agent msg with
  | error e =>
    rw [hda] at hok
    simp [Bind.bind, Except.bind] at hok
  | ok a =>
    rw [hda] at hok
    simp only [Bind.bind, Except.bind] at hok
    cases hdi : Orchestrator.dispatch h a msg with
    | error e =>
      rw [hdi] at hok
      simp at hok
    | ok resp =>
      rw [hdi] at hok
      cases hasDb with
      | false =>
        simp [pure, Except.pure] at hok
        subst hok
        exact ⟨(Orchestrator.lookup_finalize resp a cid ts msg).1,
          (Orchestrator.lookup_finalize resp a cid ts msg).2.1,
          ⟨a, (Orchestrator.lookup_finalize resp a cid ts msg).2.2⟩⟩
      | true =>
        simp [Orchestrator.save_conversation_ok, pure, Except.pure] at hok
        subst hok
        exact ⟨(Orchestrator.lookup_finalize resp a cid ts msg).1,
          (Orchestrator.lookup_finalize resp a cid ts msg).2.1,
          ⟨a, (Orchestrator.lookup_finalize resp a cid ts msg).2.2⟩⟩

/-- Witness for the amended C8: an unrecognized agent tag ("general")
routed through the general handler. -/
theorem c8_amended_success_branches_witness :
    (Orchestrator.process okH true "ts" "hello" (some "c1")).lookup "timestamp"
        = some (Orchestrator.Val.vs "ts")
    ∧ (Orchestrator.process okH true "ts" "hello" (some "c1")).lookup "original_message"
        = some (Orchestrator.Val.vs "hello")
    ∧ ∃ a, (Orchestrator.process okH true "ts" "hello" (some "c1")).lookup "agent_used"
        = some (Orchestrator.Val.vs a) :=
  c8_amended_success_branches okH true "ts" "hello" (some "c1")
    (Orchestrator.finalize [("response", .vs "hi"), ("confidence", .vn 40)]
      "general" (some "c1") "ts" "hello") (by rfl)

/-- Claim C9: a failure of the conversation-log write neither escapes
`_save_conversation` nor changes any field of the returned envelope: the
result of `process` is identical whatever the log-write outcome. -/
theorem c9_log_failure_invisible (h : Orchestrator.Handlers)
    (lw1 lw2 : Except String Unit) (hasDb : Bool) (ts msg : String)
    (cid : Option String) :
    Orchestrator.save_conversation lw1 = Except.ok ()
    ∧ Orchestrator.process { h with save_log := lw1 } hasDb ts msg cid
        = Orchestrator.process { h with save_log := lw2 } hasDb ts msg cid := by
  refine ⟨Orchestrator.save_conversation_ok lw1, ?_⟩
  unfold Orchestrator.process Orchestrator.processExc
  simp [Orchestrator.save_conversation_ok, Orchestrator.dispatch]
